import Mathlib

/-!
# Verification of the x11drv initialization core (`dlls/x11drv/x11drv_main.c`)

Shallow embedding of the driver bootstrap: the errno-location hooks installed
for non-reentrant Xlib builds, option resolution (`setup_options`), desktop
window creation (`create_desktop`), the attach/detach lifecycle
(`process_attach` / `process_detach`), and the screen-saver queries.

External calls into Xlib and the registry are modelled by explicit inputs
(success flags, registry contents, parse results) and by an event trace that
records, in program order, the externally visible actions the C code performs
(messages, `ExitProcess`, window creation, hint allocation/free, ...).
Machine integers that can never overflow on the observed ranges are modelled
as `Int`/`Nat`.
-/

namespace X11drv

/-- Win32 thread identifier; a real thread never has id 0, and a free
critical section stores 0 in its `OwningThread` field. -/
abbrev ThreadId := Nat

/-- The fields of the Win32 `CRITICAL_SECTION` that `x11drv_main.c` reads:
`X11DRV_CritSection.OwningThread` is the id of the thread currently holding
the section (0 when free). -/
structure CriticalSection where
  OwningThread : ThreadId
  RecursionCount : Nat
  deriving DecidableEq, Repr

/-- `CRITICAL_SECTION_INIT`: a statically initialized, unheld section. -/
def CRITICAL_SECTION_INIT : CriticalSection := ⟨0, 0⟩

/-- A section is held when some (nonzero) thread owns it. -/
def CriticalSection.held (cs : CriticalSection) : Prop := cs.OwningThread ≠ 0

instance (cs : CriticalSection) : Decidable cs.held := by
  unfold CriticalSection.held; infer_instance

/-- Where an errno read is directed: the process-wide static `errno` slot
(`perrno`), the process-wide static `h_errno` slot (`ph_errno`), or some
thread-local slot of thread `t` (the result of the previously installed
per-thread location function). -/
inductive ErrnoLoc
  | staticErrno
  | staticHErrno
  | threadSlot (t : ThreadId)
  deriving DecidableEq, Repr

/-- `x11_errno_location`: if the calling thread owns `X11DRV_CritSection`,
return the static libc `errno` slot, otherwise defer to the previously
installed `old_errno_location` hook. -/
def x11_errno_location (cs : CriticalSection) (old_errno_location : ThreadId → ErrnoLoc)
    (currentThread : ThreadId) : ErrnoLoc :=
  if cs.OwningThread = currentThread then ErrnoLoc.staticErrno
  else old_errno_location currentThread

/-- `x11_h_errno_location`: same redirection for `h_errno`. -/
def x11_h_errno_location (cs : CriticalSection) (old_h_errno_location : ThreadId → ErrnoLoc)
    (currentThread : ThreadId) : ErrnoLoc :=
  if cs.OwningThread = currentThread then ErrnoLoc.staticHErrno
  else old_h_errno_location currentThread

/-! ## Screen-saver state and queries

The X server's screen-saver configuration, as manipulated through
`TSXGetScreenSaver` / `TSXSetScreenSaver` / `TSXActivateScreenSaver` /
`TSXResetScreenSaver`.  Activation/reset forces or restarts blanking but does
not touch the configured timeout; `TSXSetScreenSaver` overwrites the
configuration. -/

/-- X11 `DefaultBlanking` constant. -/
def DefaultBlanking : Int := 2

/-- X11 `DefaultExposures` constant. -/
def DefaultExposures : Int := 2

/-- Server-side screen-saver state: the configured timeout/interval/blanking/
exposures plus whether the saver is currently forced active. -/
structure ScreenSaverState where
  timeout : Int
  interval : Int
  preferBlanking : Int
  allowExposures : Int
  activated : Bool
  deriving DecidableEq, Repr

/-- `TSXActivateScreenSaver`: forces the saver on; configuration unchanged. -/
def TSXActivateScreenSaver (s : ScreenSaverState) : ScreenSaverState :=
  { s with activated := true }

/-- `TSXResetScreenSaver`: deactivates the saver and restarts its countdown;
configuration unchanged. -/
def TSXResetScreenSaver (s : ScreenSaverState) : ScreenSaverState :=
  { s with activated := false }

/-- `TSXSetScreenSaver`: overwrites the screen-saver configuration. -/
def TSXSetScreenSaver (s : ScreenSaverState)
    (timeout interval preferBlanking allowExposures : Int) : ScreenSaverState :=
  { s with timeout := timeout, interval := interval,
           preferBlanking := preferBlanking, allowExposures := allowExposures }

/-- `X11DRV_GetScreenSaveActive`: reads the timeout via `TSXGetScreenSaver`
and returns `timeout != 0`. -/
def X11DRV_GetScreenSaveActive (s : ScreenSaverState) : Bool :=
  s.timeout != 0

/-- `X11DRV_SetScreenSaveActive`: activates or resets the saver. -/
def X11DRV_SetScreenSaveActive (bActivate : Bool) (s : ScreenSaverState) : ScreenSaverState :=
  if bActivate then TSXActivateScreenSaver s else TSXResetScreenSaver s

/-- `X11DRV_GetScreenSaveTimeout`: reads the timeout via `TSXGetScreenSaver`. -/
def X11DRV_GetScreenSaveTimeout (s : ScreenSaverState) : Int :=
  s.timeout

/-- `X11DRV_SetScreenSaveTimeout`: clamps the argument to at most 32767
(the protocol field is a CARD16) and calls `TSXSetScreenSaver` with it,
interval 60, default blanking and default exposures. -/
def X11DRV_SetScreenSaveTimeout (nTimeout : Int) (s : ScreenSaverState) : ScreenSaverState :=
  TSXSetScreenSaver s (if nTimeout > 32767 then 32767 else nTimeout)
    60 DefaultBlanking DefaultExposures

/-- An arbitrary but concrete screen-saver state, used to exercise the
queries at concrete inputs. -/
def saverExample : ScreenSaverState :=
  { timeout := 0, interval := 60, preferBlanking := 2, allowExposures := 2, activated := false }

/-! ## Configuration model

`Options` is the subset of the global `Options` structure that
`x11drv_main.c` reads or writes; `Registry` is the contents of the
`Software\Wine\Wine\Config\x11drv` key (string values; registry key names are
case-insensitive, so the `"Desktop"` read and `"desktop"` write address the
same `desktop` field). -/

structure Options where
  display : Option String
  managed : Bool
  desktopGeometry : Option String
  synchronous : Bool
  deriving DecidableEq, Repr

structure Registry where
  display : Option String
  managed : Option String
  desktop : Option String
  deriving DecidableEq, Repr

/-- The three window-manager hint structures allocated in `create_desktop`. -/
inductive HintKind
  | sizeHints
  | wmHints
  | classHints
  deriving DecidableEq, Repr

/-- Externally visible actions of the driver code, in program order. -/
inductive Event
  | warnDisplayIgnored
  | warnEnvIgnored
  | errMessage
  | exitProcess (code : Nat)
  | regSetDisplay (v : String)
  | regSetManaged
  | regSetDesktop (v : String)
  | openDisplay (addr : String)
  | listDepths
  | openIM
  | setErrorHandler
  | createWindow (x y : Int) (w h : Nat)
  | allocHint (k : HintKind) (ok : Bool)
  | freeHint (k : HintKind)
  | setWMProperties
  | setWMProtocols
  | mapWindow
  | gdiInit
  | getKeyboardControl
  | eventInit
  | xvidmodeInit
  | loadDisplayDll
  deriving DecidableEq, Repr

/-- Is this event one of the two configuration-conflict warnings? -/
def Event.isWarning : Event → Bool
  | .warnDisplayIgnored => true
  | .warnEnvIgnored => true
  | _ => false

/-- Number of configuration warnings in a trace. -/
def countWarnings (tr : List Event) : Nat :=
  (tr.filter Event.isWarning).length

/-- Modelled from the spec: the configuration macros `IS_OPTION_TRUE` /
`IS_OPTION_FALSE` live in a header outside `src/`; the spec describes boolean
options as `"y"`/absent, and the macros test the first character for the
usual affirmative/negative initials. -/
def IS_OPTION_TRUE (c : Char) : Bool :=
  c == 'y' || c == 'Y' || c == 't' || c == 'T' || c == '1'

/-- Modelled from the spec: negative counterpart of `IS_OPTION_TRUE`. -/
def IS_OPTION_FALSE (c : Char) : Bool :=
  c == 'n' || c == 'N' || c == 'f' || c == 'F' || c == '0'

/-- First character of a registry string buffer (`buffer[0]`); the NUL
terminator for an empty string. -/
def headChar (s : String) : Char :=
  s.toList.headD (Char.ofNat 0)

/-- First step of the managed/desktop half of `setup_options`: when neither
`--managed` nor `--desktop` was given on the command line, read the
`managed` and `Desktop` registry values into the options. -/
def managed_desktop_resolve (opts : Options) (reg : Registry) : Options :=
  if !opts.managed && opts.desktopGeometry.isNone then
    let opts1 :=
      match reg.managed with
      | some s => { opts with managed := IS_OPTION_TRUE (headChar s) }
      | none => opts
    match reg.desktop with
    | some s =>
        if !IS_OPTION_FALSE (headChar s) then { opts1 with desktopGeometry := some s }
        else opts1
    | none => opts1
  else opts

/-- Second half of `setup_options`: resolve the managed/desktop options from
the registry (`managed_desktop_resolve`), then write the effective `managed`
(`"y"` when set) and `desktop` values back to the registry. -/
def managed_desktop_options (opts : Options) (reg : Registry) :
    List Event × Options × Registry :=
  let o := managed_desktop_resolve opts reg
  ((if o.managed then [Event.regSetManaged] else []) ++
     (match o.desktopGeometry with
      | some g => [Event.regSetDesktop g]
      | none => []),
   o,
   { reg with
     managed := if o.managed then some "y" else reg.managed,
     desktop := match o.desktopGeometry with
                | some g => some g
                | none => reg.desktop })

/-- `setup_options`: create/open the config registry key (fatal on failure),
resolve the display address (persisted value wins over `--display`, which
wins over `$DISPLAY`; a conflict with the persisted value emits a warning; no
address at all is fatal; a freshly resolved address is written back), then
resolve and write back the managed/desktop options.  The result is `none`
when `ExitProcess(1)` was reached. -/
def setup_options (regCreateOk : Bool) (opts : Options) (reg : Registry)
    (envDisplay : Option String) : List Event × Option (Options × Registry) :=
  if !regCreateOk then
    ([Event.errMessage, Event.exitProcess 1], none)
  else
    match reg.display with
    | some buffer =>
        let wevs : List Event :=
          match opts.display with
          | some d => if buffer ≠ d then [Event.warnDisplayIgnored] else []
          | none =>
              match envDisplay with
              | some d => if buffer ≠ d then [Event.warnEnvIgnored] else []
              | none => []
        let md := managed_desktop_options { opts with display := some buffer } reg
        (wevs ++ md.1, some md.2)
    | none =>
        match opts.display with
        | some d =>
            let md := managed_desktop_options opts { reg with display := some d }
            (Event.regSetDisplay d :: md.1, some md.2)
        | none =>
            match envDisplay with
            | some d =>
                let md := managed_desktop_options { opts with display := some d }
                  { reg with display := some d }
                (Event.regSetDisplay d :: md.1, some md.2)
            | none => ([Event.errMessage, Event.exitProcess 1], none)

/-! ## Desktop window creation -/

/-- Result of the external geometry parser (`TSXParseGeometry`, part of the
client library): which of the X/Y/Width/Height tokens were present in the
geometry string, and the values parsed for the present ones.  The parser's
documented contract is that it assigns only the variables whose flag bit it
returns, leaving the caller's defaults in the others; `create_desktop`
initializes `x = y = 0`, `width = 640`, `height = 480` before the call. -/
structure GeomParse where
  hasX : Bool
  hasY : Bool
  hasW : Bool
  hasH : Bool
  x : Int
  y : Int
  w : Nat
  h : Nat
  deriving DecidableEq, Repr

/-- The size-hints fields `create_desktop` fills in (`XSizeHints`), with the
flag bits it sets. -/
structure SizeHints where
  min_width : Nat
  max_width : Nat
  min_height : Nat
  max_height : Nat
  pminsize : Bool
  pmaxsize : Bool
  usposition : Bool
  ussize : Bool
  psize : Bool
  deriving DecidableEq, Repr

/-- The driver-visible outcome of a successful `create_desktop`: the screen
dimensions it records and the geometry and hints of the window it created. -/
structure DesktopResult where
  screen_width : Nat
  screen_height : Nat
  win_x : Int
  win_y : Int
  win_width : Nat
  win_height : Nat
  size_hints : SizeHints
  deriving DecidableEq, Repr

/-- `create_desktop` (for a build without the optional OpenGL double-buffered
visual, so the default root/visual/depth are used): parse the geometry over
the 0,0,640,480 defaults, record the screen size, create the window, allocate
the three WM hint structures (fatal if any allocation returned NULL), fill
and attach them, free them, and map the window.  Allocation success of each
hint structure is an external input. -/
def create_desktop (g : GeomParse) (allocSize allocWM allocClass : Bool) :
    List Event × Option DesktopResult :=
  let x : Int := if g.hasX then g.x else 0
  let y : Int := if g.hasY then g.y else 0
  let width : Nat := if g.hasW then g.w else 640
  let height : Nat := if g.hasH then g.h else 480
  let evs : List Event :=
    [Event.createWindow x y width height,
     Event.allocHint HintKind.sizeHints allocSize,
     Event.allocHint HintKind.wmHints allocWM,
     Event.allocHint HintKind.classHints allocClass]
  if !allocSize || !allocWM || !allocClass then
    (evs ++ [Event.errMessage, Event.exitProcess 1], none)
  else
    let size_hints : SizeHints :=
      { min_width := width, max_width := width,
        min_height := height, max_height := height,
        pminsize := true, pmaxsize := true,
        usposition := g.hasX || g.hasY,
        ussize := g.hasW || g.hasH,
        psize := !(g.hasW || g.hasH) }
    (evs ++ [Event.setWMProperties, Event.setWMProtocols,
             Event.freeHint HintKind.sizeHints, Event.freeHint HintKind.wmHints,
             Event.freeHint HintKind.classHints, Event.mapWindow],
     some { screen_width := width, screen_height := height,
            win_x := x, win_y := y, win_width := width, win_height := height,
            size_hints := size_hints })

/-! ## Attach / detach lifecycle -/

/-- The `XKeyboardState` fields used by the driver (`TSXGetKeyboardControl`
snapshot). -/
structure XKeyboardState where
  key_click_percent : Int
  bell_percent : Int
  bell_pitch : Int
  bell_duration : Int
  global_auto_repeat : Int
  deriving DecidableEq, Repr

/-- The `XKeyboardControl` fields `process_detach` sends back via
`XChangeKeyboardControl`. -/
structure XKeyboardControl where
  key_click_percent : Int
  bell_percent : Int
  bell_pitch : Int
  bell_duration : Int
  auto_repeat_mode : Int
  deriving DecidableEq, Repr

/-- External inputs consumed during `process_attach`: configuration sources
and the responses of the registry, the X server and the GDI backend. -/
structure Env where
  regCreateOk : Bool
  opts : Options
  reg : Registry
  envDisplay : Option String
  openDisplayOk : Bool
  screenDepthOption : Nat
  depthList : List Nat
  screenDefaultDepth : Nat
  widthOfScreen : Nat
  heightOfScreen : Nat
  geom : GeomParse
  allocSizeHints : Bool
  allocWMHints : Bool
  allocClassHints : Bool
  gdiInitOk : Bool
  keyboard : XKeyboardState
  deriving DecidableEq, Repr

/-- The driver state once attach completed (the Ready state): the resolved
options and registry, the negotiated depth and screen size, and the keyboard
snapshot taken at attach. -/
structure DriverState where
  opts : Options
  reg : Registry
  screen_depth : Nat
  screen_width : Nat
  screen_height : Nat
  keyboard_state : XKeyboardState
  deriving DecidableEq, Repr

/-- The `for (i = 0; i < depth_count; i++) if (depth_list[i] == screen_depth)
break;` scan in `process_attach`: whether the requested depth occurs in the
advertised list. -/
def depth_list_find : List Nat → Nat → Bool
  | [], _ => false
  | d :: rest, sd => if d = sd then true else depth_list_find rest sd

/-- Tail of `process_attach` after depth negotiation and desktop creation:
initialize GDI (fatal on failure), snapshot the keyboard, and start the event
and auxiliary subsystems. -/
def attach_finish (env : Env) (opts : Options) (reg : Registry) (evs : List Event)
    (screen_depth screen_width screen_height : Nat) :
    List Event × Option DriverState :=
  if env.gdiInitOk then
    (evs ++ [Event.gdiInit, Event.getKeyboardControl, Event.eventInit,
             Event.xvidmodeInit, Event.loadDisplayDll],
     some { opts := opts, reg := reg, screen_depth := screen_depth,
            screen_width := screen_width, screen_height := screen_height,
            keyboard_state := env.keyboard })
  else
    (evs ++ [Event.gdiInit, Event.errMessage, Event.exitProcess 1], none)

/-- Middle of `process_attach` after depth negotiation: open the input
method, optionally install the synchronous error handler, record the screen
size, and — when a desktop geometry is configured — force managed mode off
and build the desktop window. -/
def attach_rest (env : Env) (opts : Options) (reg : Registry) (evs : List Event)
    (screen_depth : Nat) : List Event × Option DriverState :=
  let evs := evs ++ [Event.openIM] ++
    (if opts.synchronous then [Event.setErrorHandler] else [])
  match opts.desktopGeometry with
  | some _ =>
      match create_desktop env.geom env.allocSizeHints env.allocWMHints env.allocClassHints with
      | (devs, none) => (evs ++ devs, none)
      | (devs, some d) =>
          attach_finish env { opts with managed := false } reg (evs ++ devs)
            screen_depth d.screen_width d.screen_height
  | none =>
      attach_finish env opts reg evs screen_depth env.widthOfScreen env.heightOfScreen

/-- Depth negotiation step of `process_attach`: a requested nonzero
`ScreenDepth` must occur in the advertised depth list (fatal otherwise);
otherwise the screen's default depth is taken. -/
def attach_depth (env : Env) (opts : Options) (reg : Registry) (evs : List Event) :
    List Event × Option DriverState :=
  if env.screenDepthOption ≠ 0 then
    if depth_list_find env.depthList env.screenDepthOption then
      attach_rest env opts reg (evs ++ [Event.listDepths]) env.screenDepthOption
    else
      (evs ++ [Event.listDepths, Event.errMessage, Event.exitProcess 1], none)
  else
    attach_rest env opts reg evs env.screenDefaultDepth

/-- Connection step of `process_attach`: `TSXOpenDisplay` on the resolved
address, fatal on failure. -/
def attach_display (env : Env) (opts : Options) (reg : Registry) (evs : List Event) :
    List Event × Option DriverState :=
  if env.openDisplayOk then
    attach_depth env opts reg (evs ++ [Event.openDisplay (opts.display.getD "")])
  else
    (evs ++ [Event.openDisplay (opts.display.getD ""), Event.errMessage,
             Event.exitProcess 1], none)

/-- `process_attach`: run `setup_options`, then open the display, negotiate
the depth, optionally build the desktop window, initialize GDI, snapshot the
keyboard and start the remaining subsystems.  `none` means the process
exited; `some` is the Ready driver state. -/
def process_attach (env : Env) : List Event × Option DriverState :=
  match setup_options env.regCreateOk env.opts env.reg env.envDisplay with
  | (evs, none) => (evs, none)
  | (evs, some (opts, reg)) => attach_display env opts reg evs

/-- Keyboard-state changes made by arbitrary clients while the driver is
Ready, applied to the server's current keyboard state. -/
def applyKeyboardChanges (kbd : XKeyboardState)
    (changes : List (XKeyboardState → XKeyboardState)) : XKeyboardState :=
  changes.foldl (fun s f => f s) kbd

/-- `process_detach`: build the `XKeyboardControl` sent by
`XChangeKeyboardControl` from the snapshot in the driver state.  The server's
current keyboard state (`currentKbd`) is passed to show it is not consulted. -/
def process_detach (st : DriverState) (currentKbd : XKeyboardState) : XKeyboardControl :=
  { key_click_percent := st.keyboard_state.key_click_percent,
    bell_percent := st.keyboard_state.bell_percent,
    bell_pitch := st.keyboard_state.bell_pitch,
    bell_duration := st.keyboard_state.bell_duration,
    auto_repeat_mode := st.keyboard_state.global_auto_repeat }

/-! ## Helper lemmas -/

theorem setActive_timeout (b : Bool) (s : ScreenSaverState) :
    (X11DRV_SetScreenSaveActive b s).timeout = s.timeout := by
  cases b <;> rfl

theorem foldl_setActive_timeout (calls : List Bool) (s : ScreenSaverState) :
    (calls.foldl (fun st b => X11DRV_SetScreenSaveActive b st) s).timeout = s.timeout := by
  induction calls generalizing s with
  | nil => rfl
  | cons c cs ih => rw [List.foldl_cons, ih, setActive_timeout]

/-! ## Claims -/

/-- C1: while the serialization critical section is held, the errno-location
and h-errno-location hooks return the process-wide static `errno` /
`h_errno` slots when the caller is the owning thread, and defer to the
previously installed per-thread location functions for every other thread. -/
theorem c1_errno_redirect (cs : CriticalSection)
    (old_errno old_h_errno : ThreadId → ErrnoLoc) (t : ThreadId)
    (hheld : cs.held) :
    (t = cs.OwningThread →
       x11_errno_location cs old_errno t = ErrnoLoc.staticErrno ∧
       x11_h_errno_location cs old_h_errno t = ErrnoLoc.staticHErrno) ∧
    (t ≠ cs.OwningThread →
       x11_errno_location cs old_errno t = old_errno t ∧
       x11_h_errno_location cs old_h_errno t = old_h_errno t) := by
  constructor
  · intro h
    subst h
    simp [x11_errno_location, x11_h_errno_location]
  · intro h
    unfold x11_errno_location x11_h_errno_location
    rw [if_neg (Ne.symm h), if_neg (Ne.symm h)]
    exact ⟨rfl, rfl⟩

/-- Witness for C1: thread 7 owns the section; thread 7 gets the static
slots, thread 3 gets its thread-local slots. -/
theorem c1_errno_redirect_witness :
    x11_errno_location ⟨7, 1⟩ ErrnoLoc.threadSlot 7 = ErrnoLoc.staticErrno ∧
    x11_h_errno_location ⟨7, 1⟩ ErrnoLoc.threadSlot 7 = ErrnoLoc.staticHErrno ∧
    x11_errno_location ⟨7, 1⟩ ErrnoLoc.threadSlot 3 = ErrnoLoc.threadSlot 3 ∧
    x11_h_errno_location ⟨7, 1⟩ ErrnoLoc.threadSlot 3 = ErrnoLoc.threadSlot 3 := by
  have hown := c1_errno_redirect ⟨7, 1⟩ ErrnoLoc.threadSlot ErrnoLoc.threadSlot 7 (by decide)
  have hoth := c1_errno_redirect ⟨7, 1⟩ ErrnoLoc.threadSlot ErrnoLoc.threadSlot 3 (by decide)
  exact ⟨(hown.1 rfl).1, (hown.1 rfl).2, (hoth.2 (by decide)).1, (hoth.2 (by decide)).2⟩

/-- C7 counterexample: `X11DRV_SetScreenSaveTimeout` does not clamp negative
inputs, so the value sent for input `-1` is `-1`, which is negative —
contradicting the claim that the sent value is never negative. -/
theorem c7_counterexample :
    (X11DRV_SetScreenSaveTimeout (-1) saverExample).timeout = -1 ∧
    ¬(0 ≤ (X11DRV_SetScreenSaveTimeout (-1) saverExample).timeout) := by
  decide

/-- C7 amended: the timeout value `X11DRV_SetScreenSaveTimeout` sends to the
protocol is `min nTimeout 32767`: it is never greater than 32767 and it is
nonnegative whenever the input is, but negative inputs are passed through
unclamped. -/
theorem c7_amended_clamp (nTimeout : Int) (s : ScreenSaverState) :
    (X11DRV_SetScreenSaveTimeout nTimeout s).timeout = min nTimeout 32767 ∧
    (X11DRV_SetScreenSaveTimeout nTimeout s).timeout ≤ 32767 := by
  unfold X11DRV_SetScreenSaveTimeout TSXSetScreenSaver
  dsimp only
  constructor
  · split <;> omega
  · split <;> omega

/-- C10: `X11DRV_GetScreenSaveActive` is derived entirely from the server's
screen-saver timeout — it returns true iff the timeout is nonzero — and is
unchanged by any sequence of `X11DRV_SetScreenSaveActive` calls; in
particular a zero timeout always reports inactive. -/
theorem c10_active_iff_timeout (s : ScreenSaverState) (calls : List Bool) :
    (X11DRV_GetScreenSaveActive s = true ↔ s.timeout ≠ 0) ∧
    X11DRV_GetScreenSaveActive
        (calls.foldl (fun st b => X11DRV_SetScreenSaveActive b st) s)
      = X11DRV_GetScreenSaveActive s ∧
    (s.timeout = 0 →
      X11DRV_GetScreenSaveActive
          (calls.foldl (fun st b => X11DRV_SetScreenSaveActive b st) s) = false) := by
  refine ⟨by simp [X11DRV_GetScreenSaveActive], ?_, ?_⟩
  · unfold X11DRV_GetScreenSaveActive
    rw [foldl_setActive_timeout]
  · intro h
    unfold X11DRV_GetScreenSaveActive
    rw [foldl_setActive_timeout, h]
    rfl

/-- Witness for C10: with a zero timeout, activate/deactivate calls never
make the query report active. -/
theorem c10_active_iff_timeout_witness :
    X11DRV_GetScreenSaveActive
        ([true, false, true].foldl (fun st b => X11DRV_SetScreenSaveActive b st) saverExample)
      = false :=
  (c10_active_iff_timeout saverExample [true, false, true]).2.2 rfl

/-- C5: on every successful desktop creation, the recorded screen dimensions
and window geometry use the 640×480 (and 0,0) defaults exactly for the
fields whose token is absent from the geometry string, and the parsed values
for the fields whose token is present. -/
theorem c5_geometry_defaults (g : GeomParse) (aS aW aC : Bool) (tr : List Event)
    (st : DesktopResult) (hsucc : create_desktop g aS aW aC = (tr, some st)) :
    (st.win_width = if g.hasW then g.w else 640) ∧
    (st.win_height = if g.hasH then g.h else 480) ∧
    (st.win_x = if g.hasX then g.x else 0) ∧
    (st.win_y = if g.hasY then g.y else 0) ∧
    st.screen_width = st.win_width ∧ st.screen_height = st.win_height ∧
    (g.hasW = false → st.win_width = 640) ∧ (g.hasW = true → st.win_width = g.w) ∧
    (g.hasH = false → st.win_height = 480) ∧ (g.hasH = true → st.win_height = g.h) := by
  cases aS <;> cases aW <;> cases aC <;> simp [create_desktop] at hsucc
  obtain ⟨-, hst⟩ := hsucc
  subst hst
  refine ⟨?_, ?_, ?_, ?_, rfl, rfl, ?_, ?_, ?_, ?_⟩ <;>
    first
      | rfl
      | (intro h; simp [h])

/-- Concrete geometry with x and width tokens only. -/
def geomWX : GeomParse := ⟨true, false, true, false, 11, 0, 800, 0⟩

/-- Trace of `create_desktop geomWX true true true`. -/
def desktopTraceWX : List Event :=
  [Event.createWindow 11 0 800 480,
   Event.allocHint HintKind.sizeHints true,
   Event.allocHint HintKind.wmHints true,
   Event.allocHint HintKind.classHints true,
   Event.setWMProperties, Event.setWMProtocols,
   Event.freeHint HintKind.sizeHints, Event.freeHint HintKind.wmHints,
   Event.freeHint HintKind.classHints, Event.mapWindow]

/-- Result of `create_desktop geomWX true true true`. -/
def desktopResultWX : DesktopResult :=
  { screen_width := 800, screen_height := 480,
    win_x := 11, win_y := 0, win_width := 800, win_height := 480,
    size_hints := { min_width := 800, max_width := 800,
                    min_height := 480, max_height := 480,
                    pminsize := true, pmaxsize := true,
                    usposition := true, ussize := true, psize := false } }

/-- Witness for C5: a geometry with an explicit width token (800) and no
height token yields width 800 and the default height 480. -/
theorem c5_geometry_defaults_witness :
    desktopResultWX.win_width = 800 ∧ desktopResultWX.win_height = 480 ∧
    desktopResultWX.win_x = 11 := by
  have h := c5_geometry_defaults geomWX true true true desktopTraceWX desktopResultWX
    (by decide)
  obtain ⟨-, -, h3, -, -, -, -, h8, h9, -⟩ := h
  exact ⟨h8 rfl, h9 rfl, by simpa [geomWX] using h3⟩

theorem create_desktop_success_events (g : GeomParse) (k : HintKind) :
    Event.freeHint k ∈ (create_desktop g true true true).1 ∧
    Event.exitProcess 1 ∉ (create_desktop g true true true).1 ∧
    (create_desktop g true true true).2.isSome = true := by
  cases k <;> simp [create_desktop]

theorem create_desktop_failure_events (g : GeomParse) (aS aW aC : Bool)
    (hfail : ¬(aS = true ∧ aW = true ∧ aC = true)) (k : HintKind) :
    (create_desktop g aS aW aC).2 = none ∧
    Event.errMessage ∈ (create_desktop g aS aW aC).1 ∧
    Event.exitProcess 1 ∈ (create_desktop g aS aW aC).1 ∧
    Event.freeHint k ∉ (create_desktop g aS aW aC).1 := by
  cases aS <;> cases aW <;> cases aC <;> cases k <;> simp [create_desktop] <;>
    exact absurd ⟨rfl, rfl, rfl⟩ hfail

/-- C8 counterexample: when the WM-hints allocation fails while the
size-hints and class-hints allocations succeeded, `create_desktop` exits the
process without releasing the successfully allocated hint structures — no
free event occurs before termination, contradicting the claim that every
already-allocated hint structure is released first. -/
theorem c8_counterexample :
    (create_desktop ⟨false, false, false, false, 0, 0, 0, 0⟩ true false true).2 = none ∧
    Event.allocHint HintKind.sizeHints true
      ∈ (create_desktop ⟨false, false, false, false, 0, 0, 0, 0⟩ true false true).1 ∧
    Event.allocHint HintKind.classHints true
      ∈ (create_desktop ⟨false, false, false, false, 0, 0, 0, 0⟩ true false true).1 ∧
    Event.exitProcess 1
      ∈ (create_desktop ⟨false, false, false, false, 0, 0, 0, 0⟩ true false true).1 ∧
    Event.freeHint HintKind.sizeHints
      ∉ (create_desktop ⟨false, false, false, false, 0, 0, 0, 0⟩ true false true).1 ∧
    Event.freeHint HintKind.classHints
      ∉ (create_desktop ⟨false, false, false, false, 0, 0, 0, 0⟩ true false true).1 := by
  decide

/-- C8 amended: if any hint allocation fails, `create_desktop` terminates the
process with a message and exit status 1 without releasing any hint
structure (the already-allocated ones included); on the success path all
three hint structures are released after use and no exit occurs. -/
theorem c8_amended_hints (g : GeomParse) (aS aW aC : Bool) :
    (aS = true ∧ aW = true ∧ aC = true →
       (create_desktop g aS aW aC).2.isSome = true ∧
       (∀ k, Event.freeHint k ∈ (create_desktop g aS aW aC).1) ∧
       Event.exitProcess 1 ∉ (create_desktop g aS aW aC).1) ∧
    (¬(aS = true ∧ aW = true ∧ aC = true) →
       (create_desktop g aS aW aC).2 = none ∧
       Event.errMessage ∈ (create_desktop g aS aW aC).1 ∧
       Event.exitProcess 1 ∈ (create_desktop g aS aW aC).1 ∧
       (∀ k, Event.freeHint k ∉ (create_desktop g aS aW aC).1)) := by
  constructor
  · rintro ⟨h1, h2, h3⟩
    subst h1; subst h2; subst h3
    exact ⟨(create_desktop_success_events g HintKind.sizeHints).2.2,
           fun k => (create_desktop_success_events g k).1,
           (create_desktop_success_events g HintKind.sizeHints).2.1⟩
  · intro hfail
    exact ⟨(create_desktop_failure_events g aS aW aC hfail HintKind.sizeHints).1,
           (create_desktop_failure_events g aS aW aC hfail HintKind.sizeHints).2.1,
           (create_desktop_failure_events g aS aW aC hfail HintKind.sizeHints).2.2.1,
           fun k => (create_desktop_failure_events g aS aW aC hfail k).2.2.2⟩

/-- Witness for C8 amended: with all three allocations succeeding, the
desktop is created, the size-hints structure is freed, and no exit occurs. -/
theorem c8_amended_hints_witness :
    (create_desktop geomWX true true true).2.isSome = true ∧
    Event.freeHint HintKind.sizeHints ∈ (create_desktop geomWX true true true).1 ∧
    Event.exitProcess 1 ∉ (create_desktop geomWX true true true).1 :=
  ⟨((c8_amended_hints geomWX true true true).1 ⟨rfl, rfl, rfl⟩).1,
   ((c8_amended_hints geomWX true true true).1 ⟨rfl, rfl, rfl⟩).2.1 HintKind.sizeHints,
   ((c8_amended_hints geomWX true true true).1 ⟨rfl, rfl, rfl⟩).2.2⟩

theorem managed_desktop_resolve_display (o : Options) (r : Registry) :
    (managed_desktop_resolve o r).display = o.display := by
  obtain ⟨od, om, odg, os⟩ := o
  obtain ⟨rd, rm, rdk⟩ := r
  cases rm <;> cases rdk <;>
    simp only [managed_desktop_resolve] <;> split_ifs <;> rfl

theorem managed_desktop_display (o : Options) (r : Registry) :
    (managed_desktop_options o r).2.1.display = o.display ∧
    (managed_desktop_options o r).2.2.display = r.display :=
  ⟨managed_desktop_resolve_display o r, rfl⟩

theorem managed_desktop_events_shape (o : Options) (r : Registry) (ev : Event)
    (hev : ev ∈ (managed_desktop_options o r).1) :
    ev = Event.regSetManaged ∨ ∃ v, ev = Event.regSetDesktop v := by
  unfold managed_desktop_options at hev
  dsimp only at hev
  rcases List.mem_append.mp hev with h | h
  · left
    split at h <;> simp_all
  · right
    split at h <;> simp_all

theorem managed_desktop_no_warn (o : Options) (r : Registry) :
    countWarnings (managed_desktop_options o r).1 = 0 := by
  unfold countWarnings
  rw [List.length_eq_zero, List.filter_eq_nil_iff]
  intro ev hev
  rcases managed_desktop_events_shape o r ev hev with h | ⟨v, h⟩ <;>
    subst h <;> simp [Event.isWarning]

theorem managed_desktop_no_regSetDisplay (o : Options) (r : Registry) (v : String) :
    Event.regSetDisplay v ∉ (managed_desktop_options o r).1 := by
  intro hm
  rcases managed_desktop_events_shape o r _ hm with h | ⟨w, h⟩ <;> simp at h

theorem countWarnings_cons (ev : Event) (tr : List Event) :
    countWarnings (ev :: tr) = (if ev.isWarning then 1 else 0) + countWarnings tr := by
  unfold countWarnings
  rw [List.filter_cons]
  split <;> simp [Nat.add_comm]

/-- C2: when a persisted display `A` exists and the caller supplied a
different display `B`, option resolution keeps `A` as the effective display,
emits exactly one warning, succeeds, and never writes the display value back
to the registry (the persisted value stays `A`). -/
theorem c2_persisted_display_wins (A B : String) (opts : Options) (reg : Registry)
    (envDisplay : Option String)
    (hA : reg.display = some A) (hB : opts.display = some B) (hAB : A ≠ B) :
    countWarnings (setup_options true opts reg envDisplay).1 = 1 ∧
    (∀ o r, (setup_options true opts reg envDisplay).2 = some (o, r) →
        o.display = some A ∧ r.display = some A) ∧
    (setup_options true opts reg envDisplay).2.isSome = true ∧
    (∀ v, Event.regSetDisplay v ∉ (setup_options true opts reg envDisplay).1) := by
  obtain ⟨od, om, odg, os⟩ := opts
  obtain ⟨rd, rm, rdk⟩ := reg
  simp only at hA hB
  subst hA; subst hB
  have hset : setup_options true ⟨some B, om, odg, os⟩ ⟨some A, rm, rdk⟩ envDisplay
      = (Event.warnDisplayIgnored ::
           (managed_desktop_options ⟨some A, om, odg, os⟩ ⟨some A, rm, rdk⟩).1,
         some (managed_desktop_options ⟨some A, om, odg, os⟩ ⟨some A, rm, rdk⟩).2) := by
    simp [setup_options, hAB]
  rw [hset]
  refine ⟨?_, ?_, rfl, ?_⟩
  · rw [countWarnings_cons, managed_desktop_no_warn]
    decide
  · intro o r hor
    simp only [Option.some.injEq] at hor
    have h1 := (managed_desktop_display ⟨some A, om, odg, os⟩ ⟨some A, rm, rdk⟩).1
    have h2 := (managed_desktop_display ⟨some A, om, odg, os⟩ ⟨some A, rm, rdk⟩).2
    rw [hor] at h1 h2
    exact ⟨h1, h2⟩
  · intro v hv
    rcases List.mem_cons.mp hv with h | h
    · exact absurd h (by simp)
    · exact managed_desktop_no_regSetDisplay _ _ v h

/-- Caller-supplied options with display `":0"`. -/
def optsB : Options := ⟨some ":0", false, none, false⟩

/-- Registry with persisted display `":1"`. -/
def regA : Registry := ⟨some ":1", none, none⟩

/-- Witness for C2: persisted `":1"` vs supplied `":0"` gives one warning,
effective and persisted display `":1"`, and no registry write. -/
theorem c2_persisted_display_wins_witness :
    countWarnings (setup_options true optsB regA none).1 = 1 ∧
    (Options.mk (some ":1") false none false).display = some ":1" ∧
    (Registry.mk (some ":1") none none).display = some ":1" ∧
    Event.regSetDisplay ":1" ∉ (setup_options true optsB regA none).1 := by
  have h := c2_persisted_display_wins ":1" ":0" optsB regA none rfl rfl (by decide)
  exact ⟨h.1,
         (h.2.1 ⟨some ":1", false, none, false⟩ ⟨some ":1", none, none⟩ (by decide)).1,
         (h.2.1 ⟨some ":1", false, none, false⟩ ⟨some ":1", none, none⟩ (by decide)).2,
         h.2.2.2 ":1"⟩

theorem setup_options_none_trace (rOk : Bool) (o : Options) (r : Registry) (e : Option String)
    (hr : r.display = none) (ho : o.display = none) (he : e = none) :
    setup_options rOk o r e = ([Event.errMessage, Event.exitProcess 1], none) := by
  obtain ⟨od, om, odg, os⟩ := o
  obtain ⟨rd, rm, rdk⟩ := r
  simp only at hr ho
  subst hr; subst ho; subst he
  cases rOk <;> simp [setup_options]

/-- C4: with no persisted display, no caller-supplied display and no
environment display, process attach terminates with a message and exit
status 1 during option resolution, before any attempt to open the display
connection. -/
theorem c4_no_display_fatal (env : Env)
    (hreg : env.reg.display = none) (hopt : env.opts.display = none)
    (henv : env.envDisplay = none) :
    (process_attach env).2 = none ∧
    Event.errMessage ∈ (process_attach env).1 ∧
    Event.exitProcess 1 ∈ (process_attach env).1 ∧
    (∀ a, Event.openDisplay a ∉ (process_attach env).1) := by
  have hs := setup_options_none_trace env.regCreateOk env.opts env.reg env.envDisplay
    hreg hopt henv
  have hpa : process_attach env = ([Event.errMessage, Event.exitProcess 1], none) := by
    unfold process_attach
    rw [hs]
  rw [hpa]
  exact ⟨rfl, by simp, by simp, fun a => by simp⟩

/-- A concrete baseline environment for witnesses. -/
def envBase : Env :=
  { regCreateOk := true,
    opts := ⟨some ":0", false, none, false⟩,
    reg := ⟨none, none, none⟩,
    envDisplay := none,
    openDisplayOk := true,
    screenDepthOption := 0,
    depthList := [8, 16, 24, 32],
    screenDefaultDepth := 24,
    widthOfScreen := 1024,
    heightOfScreen := 768,
    geom := ⟨false, false, false, false, 0, 0, 0, 0⟩,
    allocSizeHints := true, allocWMHints := true, allocClassHints := true,
    gdiInitOk := true,
    keyboard := ⟨10, 20, 30, 40, 1⟩ }

/-- Witness for C4: no display anywhere is fatal before any connection. -/
theorem c4_no_display_fatal_witness :
    (process_attach { envBase with opts := ⟨none, false, none, false⟩ }).2 = none ∧
    Event.exitProcess 1 ∈ (process_attach { envBase with opts := ⟨none, false, none, false⟩ }).1 ∧
    Event.openDisplay ":0" ∉ (process_attach { envBase with opts := ⟨none, false, none, false⟩ }).1 := by
  have h := c4_no_display_fatal { envBase with opts := ⟨none, false, none, false⟩ } rfl rfl rfl
  exact ⟨h.1, h.2.2.1, h.2.2.2 ":0"⟩

/-- Events that option resolution can emit (configuration warnings,
diagnostics, exit, registry writes) — none of them opens a display or
creates a window. -/
def Event.isConfigEvent : Event → Bool
  | .warnDisplayIgnored => true
  | .warnEnvIgnored => true
  | .errMessage => true
  | .exitProcess _ => true
  | .regSetDisplay _ => true
  | .regSetManaged => true
  | .regSetDesktop _ => true
  | _ => false

theorem managed_desktop_config (o : Options) (r : Registry) (ev : Event)
    (hev : ev ∈ (managed_desktop_options o r).1) : ev.isConfigEvent = true := by
  rcases managed_desktop_events_shape o r ev hev with h | ⟨v, h⟩ <;> subst h <;> rfl

theorem setup_options_config (rOk : Bool) (o : Options) (r : Registry) (e : Option String)
    (ev : Event) (hev : ev ∈ (setup_options rOk o r e).1) : ev.isConfigEvent = true := by
  obtain ⟨od, om, odg, os⟩ := o
  obtain ⟨rd, rm, rdk⟩ := r
  cases rOk
  case false =>
    simp [setup_options] at hev
    rcases hev with h | h <;> subst h <;> rfl
  case true =>
    cases rd with
    | some buffer =>
      cases od with
      | some d =>
        simp only [setup_options] at hev
        rcases List.mem_append.mp hev with h | h
        · split at h <;> simp_all [Event.isConfigEvent]
        · exact managed_desktop_config _ _ _ h
      | none =>
        cases e with
        | some d =>
          simp only [setup_options] at hev
          rcases List.mem_append.mp hev with h | h
          · split at h <;> simp_all [Event.isConfigEvent]
          · exact managed_desktop_config _ _ _ h
        | none =>
          simp only [setup_options] at hev
          rcases List.mem_append.mp hev with h | h
          · simp at h
          · exact managed_desktop_config _ _ _ h
    | none =>
      cases od with
      | some d =>
        simp only [setup_options] at hev
        rcases List.mem_cons.mp hev with h | h
        · subst h; rfl
        · exact managed_desktop_config _ _ _ h
      | none =>
        cases e with
        | some d =>
          simp only [setup_options] at hev
          rcases List.mem_cons.mp hev with h | h
          · subst h; rfl
          · exact managed_desktop_config _ _ _ h
        | none =>
          simp [setup_options] at hev
          rcases hev with h | h <;> subst h <;> rfl

theorem setup_options_none (rOk : Bool) (o : Options) (r : Registry) (e : Option String)
    (hnone : (setup_options rOk o r e).2 = none) :
    (setup_options rOk o r e).1 = [Event.errMessage, Event.exitProcess 1] := by
  obtain ⟨od, om, odg, os⟩ := o
  obtain ⟨rd, rm, rdk⟩ := r
  cases rOk <;> cases rd <;> cases od <;> cases e <;> simp_all [setup_options]

theorem no_createWindow_of_config (sevs rest : List Event)
    (hsevs : ∀ ev ∈ sevs, ev.isConfigEvent = true)
    (hrest : ∀ x y w hh, Event.createWindow x y w hh ∉ rest) :
    ∀ x y w hh, Event.createWindow x y w hh ∉ sevs ++ rest := by
  intro x y w hh hmem
  rcases List.mem_append.mp hmem with h | h
  · exact absurd (hsevs _ h) (by simp [Event.isConfigEvent])
  · exact hrest x y w hh h

theorem attach_finish_some (env : Env) (o : Options) (r : Registry) (evs : List Event)
    (d w hgt : Nat) (tr : List Event) (st : DriverState)
    (heq : attach_finish env o r evs d w hgt = (tr, some st)) :
    st.opts = o ∧ st.keyboard_state = env.keyboard := by
  unfold attach_finish at heq
  split at heq
  · simp only [Prod.mk.injEq, Option.some.injEq] at heq
    obtain ⟨-, hst⟩ := heq
    subst hst
    exact ⟨rfl, rfl⟩
  · simp at heq

theorem attach_rest_some (env : Env) (o : Options) (r : Registry) (evs : List Event)
    (d : Nat) (tr : List Event) (st : DriverState)
    (heq : attach_rest env o r evs d = (tr, some st)) :
    st.keyboard_state = env.keyboard ∧ st.opts.desktopGeometry = o.desktopGeometry ∧
    (o.desktopGeometry.isSome = true → st.opts.managed = false) := by
  unfold attach_rest at heq
  rcases hdg : o.desktopGeometry with _ | g
  · simp only [hdg] at heq
    obtain ⟨h1, h2⟩ := attach_finish_some _ _ _ _ _ _ _ _ _ heq
    rw [h1, hdg]
    exact ⟨h2, rfl, fun hcontra => by simp at hcontra⟩
  · simp only [hdg] at heq
    rcases hcd : create_desktop env.geom env.allocSizeHints env.allocWMHints env.allocClassHints
      with ⟨devs, dres⟩
    rw [hcd] at heq
    cases dres with
    | none => simp at heq
    | some dd =>
      obtain ⟨h1, h2⟩ := attach_finish_some _ _ _ _ _ _ _ _ _ heq
      refine ⟨h2, ?_, fun _ => ?_⟩ <;> simp [h1, hdg]

theorem attach_depth_some (env : Env) (o : Options) (r : Registry) (evs : List Event)
    (tr : List Event) (st : DriverState)
    (heq : attach_depth env o r evs = (tr, some st)) :
    st.keyboard_state = env.keyboard ∧ st.opts.desktopGeometry = o.desktopGeometry ∧
    (o.desktopGeometry.isSome = true → st.opts.managed = false) := by
  unfold attach_depth at heq
  split at heq
  · split at heq
    · exact attach_rest_some _ _ _ _ _ _ _ heq
    · simp at heq
  · exact attach_rest_some _ _ _ _ _ _ _ heq

theorem attach_display_some (env : Env) (o : Options) (r : Registry) (evs : List Event)
    (tr : List Event) (st : DriverState)
    (heq : attach_display env o r evs = (tr, some st)) :
    st.keyboard_state = env.keyboard ∧ st.opts.desktopGeometry = o.desktopGeometry ∧
    (o.desktopGeometry.isSome = true → st.opts.managed = false) := by
  unfold attach_display at heq
  split at heq
  · exact attach_depth_some _ _ _ _ _ _ heq
  · simp at heq

theorem process_attach_some (env : Env) (tr : List Event) (st : DriverState)
    (heq : process_attach env = (tr, some st)) :
    st.keyboard_state = env.keyboard ∧
    ∀ o r, (setup_options env.regCreateOk env.opts env.reg env.envDisplay).2 = some (o, r) →
      st.opts.desktopGeometry = o.desktopGeometry ∧
      (o.desktopGeometry.isSome = true → st.opts.managed = false) := by
  unfold process_attach at heq
  rcases hs : setup_options env.regCreateOk env.opts env.reg env.envDisplay with ⟨sevs, sres⟩
  rw [hs] at heq
  cases sres with
  | none => simp at heq
  | some pr =>
    obtain ⟨o0, r0⟩ := pr
    have hinv := attach_display_some env o0 r0 sevs tr st heq
    refine ⟨hinv.1, ?_⟩
    intro o r hor
    simp only [Option.some.injEq, Prod.mk.injEq] at hor
    obtain ⟨ho, hr⟩ := hor
    subst ho
    exact hinv.2

/-- C6: whenever a desktop geometry is configured at the end of option
resolution, the managed-mode flag is false in the Ready driver state, for
every combination of prior managed-mode settings. -/
theorem c6_desktop_forces_unmanaged (env : Env) (tr : List Event) (st : DriverState)
    (hready : process_attach env = (tr, some st)) (o : Options) (r : Registry)
    (hsetup : (setup_options env.regCreateOk env.opts env.reg env.envDisplay).2 = some (o, r))
    (hdesk : o.desktopGeometry.isSome = true) :
    st.opts.managed = false :=
  ((process_attach_some env tr st hready).2 o r hsetup).2 hdesk

/-- C9: the keyboard control sent at detach is built field-by-field from the
snapshot captured at attach — regardless of any keyboard changes made while
the driver was Ready, and never from the server's current state. -/
theorem c9_keyboard_restore (env : Env) (tr : List Event) (st : DriverState)
    (hready : process_attach env = (tr, some st))
    (changes : List (XKeyboardState → XKeyboardState)) :
    process_detach st (applyKeyboardChanges env.keyboard changes) =
      { key_click_percent := env.keyboard.key_click_percent,
        bell_percent := env.keyboard.bell_percent,
        bell_pitch := env.keyboard.bell_pitch,
        bell_duration := env.keyboard.bell_duration,
        auto_repeat_mode := env.keyboard.global_auto_repeat } := by
  have hk := (process_attach_some env tr st hready).1
  unfold process_detach
  rw [hk]

/-- Desktop-mode environment (managed requested on the command line together
with a desktop geometry) whose attach succeeds. -/
def envDesk : Env := { envBase with opts := ⟨some ":0", true, some "800x600", false⟩ }

/-- Ready driver state of `process_attach envDesk`. -/
def stDesk : DriverState :=
  { opts := ⟨some ":0", false, some "800x600", false⟩,
    reg := ⟨some ":0", some "y", some "800x600"⟩,
    screen_depth := 24, screen_width := 640, screen_height := 480,
    keyboard_state := ⟨10, 20, 30, 40, 1⟩ }

/-- Trace of `process_attach envDesk`. -/
def trDesk : List Event :=
  [Event.regSetDisplay ":0", Event.regSetManaged, Event.regSetDesktop "800x600",
   Event.openDisplay ":0", Event.openIM,
   Event.createWindow 0 0 640 480,
   Event.allocHint HintKind.sizeHints true, Event.allocHint HintKind.wmHints true,
   Event.allocHint HintKind.classHints true,
   Event.setWMProperties, Event.setWMProtocols,
   Event.freeHint HintKind.sizeHints, Event.freeHint HintKind.wmHints,
   Event.freeHint HintKind.classHints, Event.mapWindow,
   Event.gdiInit, Event.getKeyboardControl, Event.eventInit,
   Event.xvidmodeInit, Event.loadDisplayDll]

/-- Witness for C6: `envDesk` requested managed mode, but because a desktop
geometry is configured the Ready state has managed off. -/
theorem c6_desktop_forces_unmanaged_witness : stDesk.opts.managed = false :=
  c6_desktop_forces_unmanaged envDesk trDesk stDesk (by decide)
    ⟨some ":0", true, some "800x600", false⟩ ⟨some ":0", some "y", some "800x600"⟩
    (by decide) rfl

/-- Ready driver state of `process_attach envBase`. -/
def stBase : DriverState :=
  { opts := ⟨some ":0", false, none, false⟩,
    reg := ⟨some ":0", none, none⟩,
    screen_depth := 24, screen_width := 1024, screen_height := 768,
    keyboard_state := ⟨10, 20, 30, 40, 1⟩ }

/-- Trace of `process_attach envBase`. -/
def trBase : List Event :=
  [Event.regSetDisplay ":0", Event.openDisplay ":0", Event.openIM,
   Event.gdiInit, Event.getKeyboardControl, Event.eventInit,
   Event.xvidmodeInit, Event.loadDisplayDll]

/-- Witness for C9: after a bell-volume change while Ready, detach still
sends exactly the attach-time snapshot values. -/
theorem c9_keyboard_restore_witness :
    process_detach stBase
        (applyKeyboardChanges envBase.keyboard [fun s => { s with bell_percent := 99 }]) =
      ⟨10, 20, 30, 40, 1⟩ :=
  c9_keyboard_restore envBase trBase stBase (by decide)
    [fun s => { s with bell_percent := 99 }]

/-- C3: whenever the configuration requests a nonzero color depth that the
screen does not advertise, process attach terminates with a message and
exit status 1, and no window — in particular no desktop window — is created
before that termination. -/
theorem c3_bad_depth_fatal (env : Env)
    (hdepth : env.screenDepthOption ≠ 0)
    (hnotin : depth_list_find env.depthList env.screenDepthOption = false) :
    (process_attach env).2 = none ∧
    Event.errMessage ∈ (process_attach env).1 ∧
    Event.exitProcess 1 ∈ (process_attach env).1 ∧
    (∀ x y w hh, Event.createWindow x y w hh ∉ (process_attach env).1) := by
  rcases hs : setup_options env.regCreateOk env.opts env.reg env.envDisplay with ⟨sevs, sres⟩
  cases sres with
  | none =>
    have h1 : sevs = [Event.errMessage, Event.exitProcess 1] := by
      have h2 := setup_options_none env.regCreateOk env.opts env.reg env.envDisplay
        (by rw [hs])
      rw [hs] at h2
      exact h2
    have hpa : process_attach env = ([Event.errMessage, Event.exitProcess 1], none) := by
      unfold process_attach
      rw [hs, h1]
    rw [hpa]
    exact ⟨rfl, by simp, by simp, fun x y w hh => by simp⟩
  | some pr =>
    obtain ⟨o0, r0⟩ := pr
    have hpa : process_attach env = attach_display env o0 r0 sevs := by
      unfold process_attach
      rw [hs]
    have hsevs : ∀ ev ∈ sevs, ev.isConfigEvent = true := by
      intro ev hev
      have h2 := setup_options_config env.regCreateOk env.opts env.reg env.envDisplay ev
      rw [hs] at h2
      exact h2 hev
    rw [hpa]
    cases hod : env.openDisplayOk with
    | false =>
      have had : attach_display env o0 r0 sevs =
          (sevs ++ [Event.openDisplay (o0.display.getD ""), Event.errMessage,
                    Event.exitProcess 1], none) := by
        simp [attach_display, hod]
      rw [had]
      refine ⟨rfl, by simp, by simp, ?_⟩
      exact no_createWindow_of_config sevs _ hsevs (fun x y w hh => by simp)
    | true =>
      have had : attach_display env o0 r0 sevs =
          (sevs ++ [Event.openDisplay (o0.display.getD ""), Event.listDepths,
                    Event.errMessage, Event.exitProcess 1], none) := by
        simp [attach_display, hod, attach_depth, hdepth, hnotin]
      rw [had]
      refine ⟨rfl, by simp, by simp, ?_⟩
      exact no_createWindow_of_config sevs _ hsevs (fun x y w hh => by simp)

/-- Environment requesting unsupported depth 15 (screen advertises 8, 16,
24, 32). -/
def envBadDepth : Env := { envBase with screenDepthOption := 15 }

/-- Witness for C3: requesting depth 15 on a screen advertising 8/16/24/32
exits fatally and never creates a window. -/
theorem c3_bad_depth_fatal_witness :
    (process_attach envBadDepth).2 = none ∧
    Event.exitProcess 1 ∈ (process_attach envBadDepth).1 ∧
    Event.createWindow 0 0 640 480 ∉ (process_attach envBadDepth).1 := by
  have h := c3_bad_depth_fatal envBadDepth (by decide) (by decide)
  exact ⟨h.1, h.2.2.1, h.2.2.2 0 0 640 480⟩

end X11drv
